import Mathlib

set_option autoImplicit false

/-!
Verification of the offline-first synchronization core of the
Ciudad Conectada PWA, as a shallow embedding of `src/app.js` and of the
newest service-worker revision (src/unnamed/part_001, the cc-cache-v5
worker).  Network behaviour is an oracle passed to each embedded function:
the outcome of every `fetch` the function performs is a parameter, so the
theorems quantify over all network behaviours.
-/

namespace CiudadConectada

/-- A queued mutating API action, one entry of the persisted `syncQueue`
array.  Mirrors the record built by `enqueueSyncAction`
(src/app.js:185): an `id` plus the spread of the caller action, whose
fields are `url`, an optional `method` and an optional `body` (the body
is kept as its JSON serialization, which is all `processSyncQueue` uses). -/
structure QueuedAction where
  id : Nat
  url : String
  method : Option String
  body : Option String
deriving DecidableEq, Repr

/-- The slice of `localStorage` the core reads and writes: the session keys
`authToken` and `currentUser`, and the queue key `syncQueue` (stored as a
JSON array, modelled typed). -/
structure Store where
  authToken : Option String
  currentUser : Option String
  syncQueue : List QueuedAction
deriving DecidableEq, Repr

/-- An HTTP response as `fetch` delivers it to the page: a status code,
the body text and the declared content type. -/
structure PageResponse where
  status : Nat
  bodyText : String
  contentType : String
deriving DecidableEq, Repr

/-- `Response.ok` of the Fetch API: the status lies in the inclusive
range 200 to 299. -/
def PageResponse.ok (r : PageResponse) : Bool :=
  200 ≤ r.status && r.status ≤ 299

/-- Outcome of one `fetch` call: a response arrived, or the promise
rejected with a transport error (offline, DNS failure, aborted). -/
inductive FetchOutcome where
  | resp (r : PageResponse)
  | transportError
deriving DecidableEq, Repr

/-- The action payload handed to `enqueueSyncAction`: the caller object
before an id is attached. -/
structure ActionInput where
  url : String
  method : Option String
  body : Option String
deriving DecidableEq, Repr

/-- `enqueueSyncAction` (src/app.js:183-189): parse the stored queue,
push the record built from `Date.now()` and the action, and write the
queue back at once.  `now` is the value `Date.now()` returned during this
call; the user-message and background-sync registration steps touch no
store state and are outside the model. -/
def enqueueSyncAction (now : Nat) (action : ActionInput) (st : Store) : Store :=
  { st with syncQueue := st.syncQueue ++
      [{ id := now, url := action.url, method := action.method, body := action.body }] }

/-- The replay loop of `processSyncQueue` counts an action as failed
exactly when its `fetch` either rejected (transport error) or resolved
with `!response.ok` and made the loop body `throw`
(src/app.js:229-237); both cases land in the same `catch`, which pushes
the action onto `failedActions`. -/
def replayFails : FetchOutcome → Bool
  | .resp r => !r.ok
  | .transportError => true

/-- A configuration of the replay loop of `processSyncQueue`: the backing
store, the part of the queue snapshot still to be replayed, the index of
the next replay (consulted by the network oracle) and the
`failedActions` accumulator. -/
structure DrainConfig where
  store : Store
  pending : List QueuedAction
  idx : Nat
  failed : List QueuedAction
deriving DecidableEq, Repr

/-- One iteration of the `for (const action of queue)` loop of
`processSyncQueue` (src/app.js:218-238).  `net i` is the outcome of the
i-th `fetch` of this drain.  The body builds a request and classifies
the outcome; its only storage access is reading `authToken`, so the
`store` component is left untouched. -/
def drainStep (net : Nat → FetchOutcome) (c : DrainConfig) : DrainConfig :=
  match c.pending with
  | [] => c
  | a :: rest =>
    { c with pending := rest, idx := c.idx + 1,
             failed := if replayFails (net c.idx) then c.failed ++ [a] else c.failed }

/-- Entry of the replay loop: the queue is read once from the store
(src/app.js:212). -/
def drainInit (st : Store) : DrainConfig :=
  { store := st, pending := st.syncQueue, idx := 0, failed := [] }

/-- The single storage write after the loop
(src/app.js:241): `syncQueue` is replaced wholesale by the accumulated
`failedActions`. -/
def drainFinish (c : DrainConfig) : Store :=
  { c.store with syncQueue := c.failed }

/-- `processSyncQueue` (src/app.js:211-250): return immediately when the
stored queue is empty, otherwise run the replay loop over the snapshot
and rewrite the queue with the failed actions. -/
def processSyncQueue (net : Nat → FetchOutcome) (st : Store) : Store :=
  if st.syncQueue.isEmpty then st
  else drainFinish ((drainStep net)^[st.syncQueue.length] (drainInit st))

/-- Running the replay loop to completion consumes the pending list and
appends, to the accumulator, exactly the pending actions whose oracle
outcome fails, tagged in order. -/
theorem drainStep_iterate (net : Nat → FetchOutcome) :
    ∀ (q : List QueuedAction) (st : Store) (i : Nat) (acc : List QueuedAction),
      (drainStep net)^[q.length] ⟨st, q, i, acc⟩ =
        ⟨st, [], i + q.length,
          acc ++ ((q.enumFrom i).filter (fun p => replayFails (net p.1))).map Prod.snd⟩ := by
  intro q
  induction q with
  | nil => intro st i acc; simp
  | cons a rest ih =>
    intro st i acc
    rw [List.length_cons, Function.iterate_succ_apply]
    show (drainStep net)^[rest.length]
        ⟨st, rest, i + 1, if replayFails (net i) then acc ++ [a] else acc⟩ = _
    rw [ih]
    by_cases h : replayFails (net i) = true <;>
      simp [h, List.enumFrom, List.filter_cons] <;> omega

/-- The queue left behind by one drain: the sublist, in order and
verbatim, of the queue snapshot at the positions whose replay outcome
fails. -/
theorem processSyncQueue_syncQueue_eq (net : Nat → FetchOutcome) (st : Store) :
    (processSyncQueue net st).syncQueue =
      (st.syncQueue.enum.filter (fun p => replayFails (net p.1))).map Prod.snd := by
  unfold processSyncQueue
  by_cases hq : st.syncQueue.isEmpty
  · rw [if_pos hq]
    rw [List.isEmpty_iff] at hq
    simp [hq]
  · rw [if_neg hq]
    unfold drainInit
    rw [drainStep_iterate net st.syncQueue st 0 []]
    simp [drainFinish, List.enum]

/-- C1: one drain in which some replays fail leaves the persisted queue
holding exactly the actions whose replay failed — the sublist of the
drained queue at the failing positions, relative order and ids verbatim.
A replay fails iff its HTTP response is not-ok or a transport error
occurs, and the two failure kinds are retained identically (the final
two conjuncts: no distinction between a permanent 4xx and a transient
failure). -/
theorem processSyncQueue_keeps_exactly_failures (net : Nat → FetchOutcome) (st : Store)
    (_hfail : ∃ i, i < st.syncQueue.length ∧ replayFails (net i) = true) :
    (processSyncQueue net st).syncQueue =
      (st.syncQueue.enum.filter (fun p => replayFails (net p.1))).map Prod.snd ∧
    (∀ r : PageResponse, replayFails (FetchOutcome.resp r) = !r.ok) ∧
    replayFails FetchOutcome.transportError = true :=
  ⟨processSyncQueue_syncQueue_eq net st, fun _ => rfl, rfl⟩

/-- C1 witness: a drain of two concrete actions whose first replay gets a
200 response and whose second hits a transport error keeps exactly the
second action, id intact. -/
theorem processSyncQueue_keeps_exactly_failures_witness :
    (processSyncQueue
        (fun i => if i = 0 then FetchOutcome.resp ⟨200, "", "application/json"⟩
                  else FetchOutcome.transportError)
        ⟨some "tok", none,
          [⟨7, "/Reports/7/estado", some "PUT", some "e1"⟩,
           ⟨9, "/Reports/9/estado", some "PUT", some "e2"⟩]⟩).syncQueue =
      [⟨9, "/Reports/9/estado", some "PUT", some "e2"⟩] := by
  have h := processSyncQueue_keeps_exactly_failures
    (fun i => if i = 0 then FetchOutcome.resp ⟨200, "", "application/json"⟩
              else FetchOutcome.transportError)
    ⟨some "tok", none,
      [⟨7, "/Reports/7/estado", some "PUT", some "e1"⟩,
       ⟨9, "/Reports/9/estado", some "PUT", some "e2"⟩]⟩
    ⟨1, by decide, by decide⟩
  rw [h.1]
  decide

/-- C2: after any sequence of `enqueueSyncAction` calls on any starting
store, one drain in which every replayed action receives an HTTP ok
response leaves the persisted queue empty. -/
theorem processSyncQueue_all_ok_empties_queue
    (net : Nat → FetchOutcome) (st0 : Store) (calls : List (Nat × ActionInput))
    (hok : ∀ i, i < (calls.foldl (fun s c => enqueueSyncAction c.1 c.2 s) st0).syncQueue.length →
      ∃ r : PageResponse, net i = FetchOutcome.resp r ∧ r.ok = true) :
    (processSyncQueue net (calls.foldl (fun s c => enqueueSyncAction c.1 c.2 s) st0)).syncQueue
      = [] := by
  set st := calls.foldl (fun s c => enqueueSyncAction c.1 c.2 s) st0 with hst
  rw [processSyncQueue_syncQueue_eq]
  have hfilter : st.syncQueue.enum.filter (fun p => replayFails (net p.1)) = [] := by
    rw [List.filter_eq_nil_iff]
    have := (List.forall_mem_enum
      (l := st.syncQueue) (p := fun p => ¬replayFails (net p.1) = true)).mpr
    refine fun a ha => this ?_ a ha
    intro i hi
    obtain ⟨r, hr, hrok⟩ := hok i hi
    simp [replayFails, hr, hrok]
  rw [hfilter]
  rfl

/-- C2 witness: one enqueued status change drained against a network
returning 200 leaves the queue empty. -/
theorem processSyncQueue_all_ok_empties_queue_witness :
    (processSyncQueue (fun _ => FetchOutcome.resp ⟨200, "", "application/json"⟩)
      ([(41, ⟨"/Reports/42/estado", some "PUT", some "Resuelto"⟩)].foldl
        (fun s c => enqueueSyncAction c.1 c.2 s) ⟨some "tok", none, []⟩)).syncQueue = [] :=
  processSyncQueue_all_ok_empties_queue
    (fun _ => FetchOutcome.resp ⟨200, "", "application/json"⟩)
    ⟨some "tok", none, []⟩
    [(41, ⟨"/Reports/42/estado", some "PUT", some "Resuelto"⟩)]
    (fun _ _ => ⟨⟨200, "", "application/json"⟩, rfl, rfl⟩)

/-- C3: `processSyncQueue` never touches the store while actions are
being replayed — after any number of loop iterations the store carried
by the loop configuration is still the initial store, so an interruption
before the pass completes leaves the persisted queue snapshot unchanged —
and the one write at the end of the full pass replaces only the
`syncQueue` key (session keys survive verbatim). -/
theorem processSyncQueue_single_wholesale_write (net : Nat → FetchOutcome) (st : Store) :
    (∀ k : Nat, ((drainStep net)^[k] (drainInit st)).store = st) ∧
    (processSyncQueue net st).authToken = st.authToken ∧
    (processSyncQueue net st).currentUser = st.currentUser := by
  have hstep : ∀ c : DrainConfig, (drainStep net c).store = c.store := by
    intro c
    obtain ⟨s, p, i, f⟩ := c
    cases p <;> rfl
  have hiter : ∀ k : Nat, ((drainStep net)^[k] (drainInit st)).store = st := by
    intro k
    induction k with
    | zero => rfl
    | succ n ih => rw [Function.iterate_succ_apply', hstep]; exact ih
  refine ⟨hiter, ?_, ?_⟩ <;>
  · unfold processSyncQueue
    by_cases hq : st.syncQueue.isEmpty <;>
      simp [hq, drainFinish, hiter]

/-- C4 counterexample: two distinct `enqueueSyncAction` calls issued in
the same millisecond (`Date.now()` returns 5 for both) assign the same
id 5 to both queued actions, refuting id uniqueness across distinct
enqueue calls. -/
theorem enqueueSyncAction_same_millisecond_same_id :
    ((enqueueSyncAction 5 ⟨"/Reports/2/estado", some "PUT", some "b"⟩
        (enqueueSyncAction 5 ⟨"/Reports/1/estado", some "PUT", some "a"⟩
          ⟨none, none, []⟩)).syncQueue.map QueuedAction.id = [5, 5]) ∧
    (⟨"/Reports/1/estado", some "PUT", some "a"⟩ : ActionInput) ≠
      ⟨"/Reports/2/estado", some "PUT", some "b"⟩ := by
  exact ⟨rfl, by decide⟩

/-- C4 amended: `enqueueSyncAction` appends the record built from the
action with the current `Date.now()` value as id to the end of the
persisted queue and persists it immediately, leaving the rest of the
store untouched; the assigned id is the enqueue timestamp, so the ids of
two enqueue calls differ whenever their `Date.now()` values differ —
calls falling in the same millisecond share one id. -/
theorem enqueueSyncAction_appends_with_timestamp_id
    (now : Nat) (a : ActionInput) (st : Store)
    (now2 : Nat) (a2 : ActionInput) (st2 : Store) (hne : now ≠ now2) :
    enqueueSyncAction now a st =
      { st with syncQueue := st.syncQueue ++ [⟨now, a.url, a.method, a.body⟩] } ∧
    ((enqueueSyncAction now a st).syncQueue.getLast?).map QueuedAction.id ≠
      ((enqueueSyncAction now2 a2 st2).syncQueue.getLast?).map QueuedAction.id := by
  refine ⟨rfl, ?_⟩
  unfold enqueueSyncAction
  simp only [List.getLast?_concat, Option.map_some]
  simp [hne]

/-- C4 amended witness: two concrete enqueue calls one millisecond apart
append their records and receive the distinct ids 5 and 6. -/
theorem enqueueSyncAction_appends_with_timestamp_id_witness :
    (enqueueSyncAction 5 ⟨"/Reports/1/estado", some "PUT", some "a"⟩ ⟨some "t", none, []⟩ =
      { (⟨some "t", none, []⟩ : Store) with
          syncQueue := ([] : List QueuedAction) ++
            [⟨5, "/Reports/1/estado", some "PUT", some "a"⟩] }) ∧
    ((enqueueSyncAction 5 ⟨"/Reports/1/estado", some "PUT", some "a"⟩
        ⟨some "t", none, []⟩).syncQueue.getLast?).map QueuedAction.id ≠
      ((enqueueSyncAction 6 ⟨"/Reports/2/estado", some "PUT", some "b"⟩
        ⟨some "t", none, []⟩).syncQueue.getLast?).map QueuedAction.id :=
  enqueueSyncAction_appends_with_timestamp_id
    5 ⟨"/Reports/1/estado", some "PUT", some "a"⟩ ⟨some "t", none, []⟩
    6 ⟨"/Reports/2/estado", some "PUT", some "b"⟩ ⟨some "t", none, []⟩
    (by decide)

/-- One key assignment inside a JS object literal: a later assignment to
an existing key overwrites its value in place, a new key is appended. -/
def objSet (m : List (String × String)) (k v : String) : List (String × String) :=
  if m.any (fun p => p.1 = k) then
    m.map (fun p => if p.1 = k then (k, v) else p)
  else m ++ [(k, v)]

/-- Spreading the object `adds` into a literal already holding `m`:
the assignments of `adds` are applied left to right. -/
def objSpread (m adds : List (String × String)) : List (String × String) :=
  adds.foldl (fun acc p => objSet acc p.1 p.2) m

/-- Lookup of a key in a JS object modelled as an assignment list. -/
def lookupKey (m : List (String × String)) (k : String) : Option String :=
  (m.find? (fun p => p.1 = k)).map (fun p => p.2)

/-- The `options` argument of `apiCall`: each field is `some` exactly
when the caller object carries that key.  The body is kept as its JSON
serialization (the `JSON.stringify` branch of `apiCall` is applied to
non-string bodies before transmission and is not needed by the claims). -/
structure ApiOptions where
  method : Option String
  headers : Option (List (String × String))
  body : Option String
deriving DecidableEq, Repr

/-- The inner `headers:` object literal of the `config` built by
`apiCall` (src/app.js:145-149): `Content-Type: application/json`, then
the conditional spread `...(token && Authorization)`, then the spread of
`options.headers`. -/
def apiCallMergedHeaders (token : Option String)
    (optHeaders : Option (List (String × String))) : List (String × String) :=
  objSpread
    (objSpread [("Content-Type", "application/json")]
      (match token with
       | some t => [("Authorization", "Bearer " ++ t)]
       | none => []))
    (optHeaders.getD [])

/-- The request configuration `apiCall` hands to `fetch`
(src/app.js:143-151): default method GET, the merged headers literal,
then the outer spread `...options` — which comes after the `headers:`
entry, so an options object that carries a `headers` key overwrites the
merged literal with the caller object. -/
structure RequestConfig where
  method : String
  headers : List (String × String)
  body : Option String
deriving DecidableEq, Repr

/-- The `config` object after both spreads in `apiCall`. -/
def apiCallConfig (token : Option String) (opts : ApiOptions) : RequestConfig :=
  { method := opts.method.getD "GET",
    headers := match opts.headers with
               | some h => h
               | none => apiCallMergedHeaders token opts.headers,
    body := opts.body }

/-- The uniform error `apiCall` rejects with: a server-reported status
plus body text (the thrown `Error` message carries both,
src/app.js:162), or the transport error propagated from `fetch`. -/
inductive ApiError where
  | http (status : Nat) (bodyText : String)
  | transport
deriving DecidableEq, Repr

/-- The parsed value `apiCall` resolves with: the body via
`response.json()` when the content type declares JSON, else the raw
text. -/
inductive ApiValue where
  | json (raw : String)
  | text (raw : String)
deriving DecidableEq, Repr

/-- `logout` (src/app.js:122-131): remove both session keys from the
store.  The redirect to `Login.html` is navigation, outside the store
model. -/
def logout (st : Store) : Store :=
  { st with authToken := none, currentUser := none }

/-- Response handling of `apiCall` (src/app.js:157-175), after the
single `fetch` whose outcome is `out`.  A not-ok response first forces
`logout` when its status is 401, then throws an error carrying the
status and the body text; an ok response resolves with the parsed body;
a transport error propagates through the catch (which only logs and
shows a message) as a rejection. -/
def apiCall (out : FetchOutcome) (st : Store) : Store × Except ApiError ApiValue :=
  match out with
  | .transportError => (st, .error .transport)
  | .resp r =>
    if r.ok then
      (st, .ok (if (r.contentType.splitOn "application/json").length != 1
                then .json r.bodyText else .text r.bodyText))
    else
      let st1 := if r.status = 401 then logout st else st
      (st1, .error (.http r.status r.bodyText))

/-- C5: the claim that `apiCall` always sends `Content-Type` (and
`Authorization` when a token is stored) fails because the outer
`...options` spread comes after the `headers:` entry of `config`: a call
that passes any `headers` option replaces the merged defaults wholesale.
Concretely, with a stored token and caller headers carrying only
`X-Custom`, the outgoing request has no `Content-Type` and no
`Authorization` header at all — while the same call without a `headers`
option does send both defaults. -/
theorem apiCall_caller_headers_drop_defaults :
    (apiCallConfig (some "tok")
        { method := some "PUT", headers := some [("X-Custom", "1")], body := none }).headers
      = [("X-Custom", "1")] ∧
    lookupKey (apiCallConfig (some "tok")
        { method := some "PUT", headers := some [("X-Custom", "1")], body := none }).headers
      "Content-Type" = none ∧
    lookupKey (apiCallConfig (some "tok")
        { method := some "PUT", headers := some [("X-Custom", "1")], body := none }).headers
      "Authorization" = none ∧
    lookupKey (apiCallConfig (some "tok")
        { method := some "PUT", headers := none, body := none }).headers
      "Content-Type" = some "application/json" ∧
    lookupKey (apiCallConfig (some "tok")
        { method := some "PUT", headers := none, body := none }).headers
      "Authorization" = some "Bearer tok" := by
  refine ⟨rfl, ?_, ?_, ?_, ?_⟩ <;> decide

/-- C6: every `apiCall` that receives an HTTP 401 response clears the
session credential — both `authToken` and `currentUser` — as a side
effect, and fails with the error carrying the status 401 and the body
text, whichever endpoint produced the response. -/
theorem apiCall_401_clears_session (r : PageResponse) (st : Store)
    (h401 : r.status = 401) :
    (apiCall (FetchOutcome.resp r) st).1.authToken = none ∧
    (apiCall (FetchOutcome.resp r) st).1.currentUser = none ∧
    (apiCall (FetchOutcome.resp r) st).2 = Except.error (ApiError.http 401 r.bodyText) := by
  have hok : r.ok = false := by
    simp [PageResponse.ok, h401]
  simp [apiCall, hok, h401, logout]

/-- C6 witness: a concrete 401 with a signed-in session: both session
keys end cleared and the call fails with status 401 and the body text. -/
theorem apiCall_401_clears_session_witness :
    (apiCall (FetchOutcome.resp ⟨401, "Unauthorized", "text/plain"⟩)
        ⟨some "tok", some "user-record", []⟩).1.authToken = none ∧
    (apiCall (FetchOutcome.resp ⟨401, "Unauthorized", "text/plain"⟩)
        ⟨some "tok", some "user-record", []⟩).1.currentUser = none ∧
    (apiCall (FetchOutcome.resp ⟨401, "Unauthorized", "text/plain"⟩)
        ⟨some "tok", some "user-record", []⟩).2
      = Except.error (ApiError.http 401 "Unauthorized") :=
  apiCall_401_clears_session ⟨401, "Unauthorized", "text/plain"⟩
    ⟨some "tok", some "user-record", []⟩ rfl

/-! The v5 service worker (the newest revision in the corpus):
constants, activate handler and fetch policy. -/

/-- A JSON value, for the bodies the service worker synthesizes. -/
inductive Json where
  | bool (b : Bool)
  | str (s : String)
  | num (n : Int)
  | arr (xs : List Json)
  | obj (fields : List (String × Json))

/-- A response as the service worker handles it: a status code and a
body.  A synthesized `new Response(text)` with no status option gets
status 200. -/
structure SwResponse where
  status : Nat
  body : Json

/-- `Response.ok` for the service worker responses. -/
def SwResponse.ok (r : SwResponse) : Bool :=
  200 ≤ r.status && r.status ≤ 299

/-- The current static-asset cache generation name (v5 worker, line 1). -/
def CACHE_NAME : String := "cc-cache-v5"

/-- The current API-response cache generation name (v5 worker, line 2). -/
def API_CACHE : String := "cc-api-cache-v5"

/-- The fixed static-asset manifest of the v5 worker. -/
def STATIC_ASSETS : List String :=
  ["/", "/Home.html", "/DetalleReporte.html", "/Perfil.html",
   "/Notificaciones.html", "/Login.html", "/RegistrarUsuario.html",
   "/app.css", "/app.js", "/icons/icono_144x144.png",
   "https://fonts.googleapis.com/css2?family=Public+Sans:wght@400;500;600;700;800;900&display=swap",
   "https://fonts.googleapis.com/css2?family=Material+Symbols+Outlined"]

/-- The configured API base URL of the v5 worker. -/
def API_BASE : String := "https://ciudad-conectada.onrender.com/api"

/-- The `activate` handler: of the existing cache names, those deleted —
every key differing from both current generation names
(`keys.filter(key => key !== CACHE_NAME && key !== API_CACHE)`). -/
def activateDeletedKeys (keys : List String) : List String :=
  keys.filter (fun key => key != CACHE_NAME && key != API_CACHE)

/-- The cache names still present once activation completes: exactly the
keys the activate handler did not delete. -/
def activateSurvivingKeys (keys : List String) : List String :=
  keys.filter (fun key => !(key != CACHE_NAME && key != API_CACHE))

/-- The API cache generation content: entries keyed by request identity. -/
abbrev ApiCacheStore := List (String × SwResponse)

/-- `cache.put(request, response)`: overwrite the entry for the request
identity when one exists, else add it. -/
def cachePut (c : ApiCacheStore) (k : String) (r : SwResponse) : ApiCacheStore :=
  if c.any (fun p => p.1 = k) then
    c.map (fun p => if p.1 = k then (k, r) else p)
  else c ++ [(k, r)]

/-- `caches.match(request)` against the API generation. -/
def cacheMatch (c : ApiCacheStore) (k : String) : Option SwResponse :=
  (c.find? (fun p => p.1 = k)).map (fun p => p.2)

/-- The placeholder body the v5 worker synthesizes when offline with no
cached entry (its `JSON.stringify` argument, object keys in source
order). -/
def offlineFallbackBody : Json :=
  .obj [("ok", .bool true), ("offline", .bool true),
        ("message", .str "Datos cargados offline"), ("data", .arr [])]

/-- The synthesized offline response: a bare `new Response(body, ...)`
defaults to status 200. -/
def offlineFallbackResponse : SwResponse :=
  { status := 200, body := offlineFallbackBody }

/-- The offline placeholder body as the spec words state it: an object
with exactly the fields ok (true), offline (true) and data (empty
array).  Stated for comparison with the body the code synthesizes. -/
def specOfflineBody : Json :=
  .obj [("ok", .bool true), ("offline", .bool true), ("data", .arr [])]

/-- `apiNetworkThenCache` (v5 worker, lines 140-168): try the network;
cache the live response, keyed by the request identity, only when
`networkResponse.ok`, and return it unchanged either way; on a transport
error serve the cached entry for that identity when one exists, else the
synthesized offline placeholder.  `net` is the outcome of the one
`fetch(request)`. -/
def apiNetworkThenCache (net : Except Unit SwResponse) (cache : ApiCacheStore)
    (k : String) : SwResponse × ApiCacheStore :=
  match net with
  | .ok r => if r.ok then (r, cachePut cache k r) else (r, cache)
  | .error _ =>
    match cacheMatch cache k with
    | some cached => (cached, cache)
    | none => (offlineFallbackResponse, cache)

/-- A request as the fetch handler sees it: the full href and the parsed
pathname. -/
structure SwRequest where
  href : String
  pathname : String

/-- The fetch handler of the v5 worker (lines 115-135), three mutually
exclusive branches: static manifest paths are cache-first (with no
catch on the network fallback), API-prefixed URLs go through
`apiNetworkThenCache`, everything else is network-first with a
`caches.match` fallback.  `staticCache` is the static generation keyed
by pathname, `net` the network outcome for this request.  Returns the
response outcome, the API cache afterwards, and whether the network was
contacted. -/
def handleFetch (staticCache : String → Option SwResponse) (apiCache : ApiCacheStore)
    (net : Except Unit SwResponse) (req : SwRequest) :
    Except Unit SwResponse × ApiCacheStore × Bool :=
  if STATIC_ASSETS.contains req.pathname then
    match staticCache req.pathname with
    | some r => (.ok r, apiCache, false)
    | none => (net, apiCache, true)
  else if req.href.startsWith API_BASE then
    let rc := apiNetworkThenCache net apiCache req.href
    (.ok rc.1, rc.2, true)
  else
    match net with
    | .ok r => (.ok r, apiCache, true)
    | .error _ =>
      match staticCache req.pathname with
      | some r => (.ok r, apiCache, true)
      | none =>
        match cacheMatch apiCache req.href with
        | some r => (.ok r, apiCache, true)
        | none => (.error (), apiCache, true)

/-- C7 counterexample: with no network and no cached entry, the body the
worker synthesizes is not the three-field object the claim states — it
carries an extra `message` field — shown at the concrete identity of a
Reports fetch against the empty cache. -/
theorem offline_body_differs_from_claimed_body :
    (apiNetworkThenCache (.error ()) []
        "https://ciudad-conectada.onrender.com/api/Reports").1.body ≠ specOfflineBody ∧
    (apiNetworkThenCache (.error ()) []
        "https://ciudad-conectada.onrender.com/api/Reports").1.body = offlineFallbackBody := by
  constructor
  · intro h
    simp [apiNetworkThenCache, cacheMatch, offlineFallbackResponse,
      offlineFallbackBody, specOfflineBody] at h
  · rfl

/-- C7 amended: for every API request intercepted while the network is
unreachable and with no cached response for that request identity, the
synthesized response has status 200 and its body is the object with
fields ok (true), offline (true), message ("Datos cargados offline") and
data (empty array) — the spec body plus the extra message field. -/
theorem apiNetworkThenCache_offline_placeholder (cache : ApiCacheStore) (k : String)
    (hmiss : cacheMatch cache k = none) :
    (apiNetworkThenCache (.error ()) cache k).1.status = 200 ∧
    (apiNetworkThenCache (.error ()) cache k).1.body =
      Json.obj [("ok", .bool true), ("offline", .bool true),
                ("message", .str "Datos cargados offline"), ("data", .arr [])] := by
  simp [apiNetworkThenCache, hmiss, offlineFallbackResponse, offlineFallbackBody]

/-- C7 amended witness: the placeholder at a concrete Reports identity
against the empty cache. -/
theorem apiNetworkThenCache_offline_placeholder_witness :
    (apiNetworkThenCache (.error ()) []
        "https://ciudad-conectada.onrender.com/api/Reports").1.status = 200 ∧
    (apiNetworkThenCache (.error ()) []
        "https://ciudad-conectada.onrender.com/api/Reports").1.body =
      Json.obj [("ok", .bool true), ("offline", .bool true),
                ("message", .str "Datos cargados offline"), ("data", .arr [])] :=
  apiNetworkThenCache_offline_placeholder []
    "https://ciudad-conectada.onrender.com/api/Reports" rfl

/-- C8: on activation, every cache name other than the current static
generation and the current API generation is deleted, so at most those
two generations survive: every surviving name is one of the two, and
every other existing name is among the deleted ones. -/
theorem activate_deletes_stale_generations (keys : List String) :
    (∀ k ∈ activateSurvivingKeys keys, k = CACHE_NAME ∨ k = API_CACHE) ∧
    (∀ k ∈ keys, k ≠ CACHE_NAME → k ≠ API_CACHE → k ∈ activateDeletedKeys keys) := by
  constructor
  · intro k hk
    rw [activateSurvivingKeys, List.mem_filter] at hk
    have h := hk.2
    simp only [Bool.not_and, Bool.or_eq_true, Bool.not_eq_true', bne_eq_false_iff_eq] at h
    exact h
  · intro k hk h1 h2
    rw [activateDeletedKeys, List.mem_filter]
    exact ⟨hk, by simp [h1, h2]⟩

/-- C9: a request whose path is in the fixed static manifest and for
which the static cache generation holds an entry is answered from that
cache, and the network is never contacted (the handler returns with the
network flag false). -/
theorem static_cache_hit_never_reaches_network
    (staticCache : String → Option SwResponse) (apiCache : ApiCacheStore)
    (net : Except Unit SwResponse) (req : SwRequest) (r : SwResponse)
    (hmanifest : STATIC_ASSETS.contains req.pathname = true)
    (hhit : staticCache req.pathname = some r) :
    handleFetch staticCache apiCache net req = (.ok r, apiCache, false) := by
  unfold handleFetch
  rw [hmanifest, hhit]
  rfl

/-- C9 witness: a cached `/Home.html` is served from the static cache
with the network untouched, whatever the network would have answered. -/
theorem static_cache_hit_never_reaches_network_witness :
    handleFetch (fun p => if p = "/Home.html" then some ⟨200, Json.str "home"⟩ else none)
        [] (.error ()) ⟨"https://ciudad-conectada.onrender.com/Home.html", "/Home.html"⟩ =
      (.ok ⟨200, Json.str "home"⟩, [], false) :=
  static_cache_hit_never_reaches_network
    (fun p => if p = "/Home.html" then some ⟨200, Json.str "home"⟩ else none)
    [] (.error ()) ⟨"https://ciudad-conectada.onrender.com/Home.html", "/Home.html"⟩
    ⟨200, Json.str "home"⟩ (by decide) (by simp)

/-- Entries of an overwritten cache: an entry of `cachePut c k r` is an
entry of `c` or the new pair. -/
theorem cachePut_mem (c : ApiCacheStore) (k : String) (r : SwResponse) :
    ∀ p ∈ cachePut c k r, p ∈ c ∨ p = (k, r) := by
  intro p hp
  unfold cachePut at hp
  split at hp
  · rcases List.mem_map.mp hp with ⟨q, hq, hqp⟩
    by_cases hk : q.1 = k
    · right
      rw [if_pos hk] at hqp
      exact hqp.symm
    · left
      rw [if_neg hk] at hqp
      exact hqp ▸ hq
  · rcases List.mem_append.mp hp with h1 | h1
    · exact Or.inl h1
    · exact Or.inr (List.mem_singleton.mp h1)

/-- A cache hit is an entry of the cache. -/
theorem cacheMatch_mem (c : ApiCacheStore) (k : String) (r : SwResponse)
    (h : cacheMatch c k = some r) : ∃ q ∈ c, q.2 = r := by
  unfold cacheMatch at h
  rcases hfind : c.find? (fun p => p.1 = k) with _ | q
  · rw [hfind] at h
    cases h
  · rw [hfind] at h
    refine ⟨q, List.mem_of_find?_eq_some hfind, ?_⟩
    simpa using h

/-- C10: the API cache generation only ever holds successful responses.
An ok network response is stored under the request identity and returned
live; a not-ok network response is returned unchanged with the cache —
including any previous entry for that identity — left untouched; the
only-ok invariant is preserved by every call; and under that invariant
the response served while offline is itself ok (never a cached error). -/
theorem apiNetworkThenCache_cache_only_ok
    (net : Except Unit SwResponse) (cache : ApiCacheStore) (k : String)
    (hinv : ∀ p ∈ cache, (p.2).ok = true) :
    (∀ r : SwResponse, net = .ok r → r.ok = true →
      apiNetworkThenCache net cache k = (r, cachePut cache k r)) ∧
    (∀ r : SwResponse, net = .ok r → r.ok = false →
      apiNetworkThenCache net cache k = (r, cache)) ∧
    (∀ p ∈ (apiNetworkThenCache net cache k).2, (p.2).ok = true) ∧
    (net = .error () → ((apiNetworkThenCache net cache k).1).ok = true) := by
  refine ⟨?_, ?_, ?_, ?_⟩
  · intro r hnet hok
    subst hnet
    simp [apiNetworkThenCache, hok]
  · intro r hnet hok
    subst hnet
    simp [apiNetworkThenCache, hok]
  · intro p hp
    cases net with
    | ok r =>
      by_cases hok : r.ok = true
      · simp [apiNetworkThenCache, hok] at hp
        rcases cachePut_mem cache k r p hp with h | h
        · exact hinv p h
        · rw [h]
          exact hok
      · simp [apiNetworkThenCache, hok] at hp
        exact hinv p hp
    | error u =>
      unfold apiNetworkThenCache at hp
      rcases hm : cacheMatch cache k with _ | cached <;> rw [hm] at hp <;> exact hinv p hp
  · intro hnet
    subst hnet
    unfold apiNetworkThenCache
    rcases hm : cacheMatch cache k with _ | cached
    · rfl
    · obtain ⟨q, hq, hqr⟩ := cacheMatch_mem cache k cached hm
      simpa [hqr] using hinv q hq

/-- C10 witness: invariant preservation applied at a concrete ok store
into a one-entry cache that satisfies the invariant. -/
theorem apiNetworkThenCache_cache_only_ok_witness :
    apiNetworkThenCache (.ok ⟨200, Json.str "live"⟩)
        [("https://ciudad-conectada.onrender.com/api/Reports", ⟨200, Json.str "old"⟩)]
        "https://ciudad-conectada.onrender.com/api/Reports" =
      (⟨200, Json.str "live"⟩,
        cachePut [("https://ciudad-conectada.onrender.com/api/Reports", ⟨200, Json.str "old"⟩)]
          "https://ciudad-conectada.onrender.com/api/Reports" ⟨200, Json.str "live"⟩) :=
  (apiNetworkThenCache_cache_only_ok (.ok ⟨200, Json.str "live"⟩)
      [("https://ciudad-conectada.onrender.com/api/Reports", ⟨200, Json.str "old"⟩)]
      "https://ciudad-conectada.onrender.com/api/Reports"
      (by intro p hp; simp at hp; rw [hp]; rfl)).1
    ⟨200, Json.str "live"⟩ rfl rfl

end CiudadConectada
